import Mathlib

/-!
Shallow embedding of the rsrl reinforcement-learning core of the
`robust_trading.icml2019` repository.  Real numbers (Rust `f64`) are modelled
as rationals `ℚ`; ndarray vectors as `List ℚ`; a matrix of Q-weights as a
list of per-action weight vectors (`List (List ℚ)`).  Rust methods that
return `Result`/panic are embedded as `Option`-valued functions: `.unwrap()`
becomes a monadic bind (failure aborts the step) and `.ok()` becomes
`Option.getD` (failure is discarded and the step continues).
-/

namespace Rsrl

/-- Observation of the environment, from `src/rsrl/src/domains/mod.rs`:
`Full(S) | Partial(S) | Terminal(S)` (the `Partial` constructor is named
`part` here). -/
inductive Observation (S : Type) where
  | full (s : S)
  | part (s : S)
  | terminal (s : S)
deriving Repr, DecidableEq

/-- `Observation::state`, from `src/rsrl/src/domains/mod.rs`. -/
def Observation.state {S : Type} : Observation S → S
  | .full s => s
  | .part s => s
  | .terminal s => s

/-- `Observation::is_terminal`, from `src/rsrl/src/domains/mod.rs`. -/
def Observation.is_terminal {S : Type} : Observation S → Bool
  | .terminal _ => true
  | _ => false

/-- Transition container, from `src/rsrl/src/domains/mod.rs` (the Rust field
`from` is named `frm` and `to` is named `tto`, because both are Lean
keywords). -/
structure Transition (S A : Type) where
  frm : Observation S
  action : A
  reward : ℚ
  tto : Observation S
deriving Repr, DecidableEq

/-- `Transition::terminated`, from `src/rsrl/src/domains/mod.rs`:
`self.to.is_terminal()`. -/
def Transition.terminated {S A : Type} (t : Transition S A) : Bool :=
  t.tto.is_terminal

/-- Modelled from the spec: the `Schedule` type of a scalar `Parameter`
(`rsrl`'s `core` parameter module is not under `src/`).  The spec lists
`Constant`, exponential-decay and linear-decay schedules, with the value
kept within the schedule's declared bound. -/
inductive Schedule where
  | constant
  | exponentialDecay (rate : ℚ) (bound : ℚ)
  | linearDecay (rate : ℚ) (bound : ℚ)
deriving Repr, DecidableEq

/-- Modelled from the spec: `Parameter — ⦃value: f64, schedule: Schedule⦄`
(the parameter type itself is not under `src/`).  Arithmetic on a
`Parameter` acts transparently on `value`; embeddings below spell this out
as `.value`. -/
structure Parameter where
  value : ℚ
  schedule : Schedule
deriving Repr, DecidableEq

/-- Modelled from the spec: `Parameter.step()` returns a new `Parameter`
with `value` advanced by exactly one schedule tick, staying within the
schedule's declared bound; a `Constant` schedule leaves the value
unchanged. -/
def Parameter.step (p : Parameter) : Parameter :=
  match p.schedule with
  | .constant => p
  | .exponentialDecay rate bound => ⟨max bound (p.value * rate), p.schedule⟩
  | .linearDecay rate bound => ⟨max bound (p.value - rate), p.schedule⟩

/-- Constant-schedule parameter (the `T: Into<Parameter>` conversion from a
bare `f64`). -/
def Parameter.const (v : ℚ) : Parameter := ⟨v, .constant⟩

/-- Dot product of two feature vectors (ndarray `dot`). -/
def dot (x y : List ℚ) : ℚ := (List.zipWith (· * ·) x y).sum

/-- Scalar multiplication of a feature vector. -/
def scale (c : ℚ) (x : List ℚ) : List ℚ := x.map (fun v => c * v)

/-- Pointwise addition of two feature vectors (ndarray `+`). -/
def vadd (x y : List ℚ) : List ℚ := List.zipWith (· + ·) x y

/-- Modelled from the spec: the eligibility-trace type
`⦃weights: vector, decay_rate: Parameter⦄` (named `lambda` in the call
sites under `src/`, e.g. `self.trace.lambda`); the trace type itself is not
under `src/`. -/
structure Trace where
  weights : List ℚ
  lambda : Parameter
deriving Repr, DecidableEq

/-- Modelled from the spec: `Trace::get()` returns the trace vector. -/
def Trace.get (z : Trace) : List ℚ := z.weights

/-- Modelled from the spec: `Trace::decay(rate)` scales the trace vector by
`rate` (the decay half of `trace ← decay_rate·trace + φ`). -/
def Trace.decay (z : Trace) (rate : ℚ) : Trace :=
  { z with weights := scale rate z.weights }

/-- Modelled from the spec: `Trace::update(v)` accumulates `v` into the
trace vector (the additive half of `trace ← decay_rate·trace + φ`). -/
def Trace.update (z : Trace) (v : List ℚ) : Trace :=
  { z with weights := vadd z.weights v }

/-- Modelled from the spec: the external linear function approximator for
action values (the `fa` layer is an out-of-scope collaborator; the spec's
test scenarios fix a linear Q-function).  `weights` holds one weight vector
per discrete action and `embed` is the basis expansion `φ`. -/
structure LinearQ (S : Type) where
  embed : S → List ℚ
  weights : List (List ℚ)

/-- Modelled from the spec: `evaluate(features)` of the linear Q-function
returns the vector of per-action values `⟨w_a, φ⟩`; evaluation of the full
vector cannot shape-fail in this model. -/
def LinearQ.evaluate {S : Type} (q : LinearQ S) (phi : List ℚ) : List ℚ :=
  q.weights.map (fun w => dot w phi)

/-- Modelled from the spec: `evaluate_index(features, a)` of the linear
Q-function; fails (Rust `Err`, unwrapped by callers) when the action index
is out of range. -/
def LinearQ.evaluate_index {S : Type} (q : LinearQ S) (phi : List ℚ) (a : ℕ) :
    Option ℚ :=
  if a < q.weights.length then some (dot (q.weights.getD a []) phi) else none

/-- Modelled from the spec: `update_index(features, a, e)` of the linear
Q-function performs `w_a ← w_a + e·features`, failing with an
`ApproximationError` on shape mismatch (feature vector length differing
from the weight-vector length) or an out-of-range action index. -/
def LinearQ.update_index {S : Type} (q : LinearQ S) (phi : List ℚ) (a : ℕ)
    (e : ℚ) : Option (LinearQ S) :=
  if a < q.weights.length ∧ (q.weights.getD a []).length = phi.length then
    some { q with
           weights := q.weights.mapIdx (fun i w =>
             if i = a then vadd w (scale e phi) else w) }
  else none

/-- Modelled from the spec: the external linear state-value approximator
(`VFunction`): a single weight vector over the basis expansion `embed`. -/
structure LinearV (S : Type) where
  embed : S → List ℚ
  weights : List ℚ

/-- Modelled from the spec: scalar `evaluate(features)` of the linear
V-function. -/
def LinearV.evaluate {S : Type} (v : LinearV S) (phi : List ℚ) : ℚ :=
  dot v.weights phi

/-- Modelled from the spec: `state_value(s)` of the linear V-function
evaluates the approximator at the state's own basis expansion. -/
def LinearV.state_value {S : Type} (v : LinearV S) (s : S) : ℚ :=
  v.evaluate (v.embed s)

/-- Modelled from the spec: `update(features, e)` of the linear V-function
performs `w ← w + e·features`, failing with an `ApproximationError` on
shape mismatch. -/
def LinearV.update {S : Type} (v : LinearV S) (phi : List ℚ) (e : ℚ) :
    Option (LinearV S) :=
  if v.weights.length = phi.length then
    some { v with weights := vadd v.weights (scale e phi) }
  else none

/-- Index of the first maximum of a list of values (deterministic argmax). -/
def argmaxList (xs : List ℚ) : ℕ :=
  (List.range xs.length).foldl
    (fun b i => if xs.getD b 0 < xs.getD i 0 then i else b) 0

/-- Modelled from the spec: the `Greedy` target policy (not under `src/`):
"a policy that always selects the action maximizing a Q-function".
`sample` returns the argmax action of the Q-vector at `s`. -/
def Greedy.sample {S : Type} (q : LinearQ S) (s : S) : ℕ :=
  argmaxList (q.evaluate (q.embed s))

/-- Pointwise subtraction of two feature vectors (ndarray `-`). -/
def vsub (x y : List ℚ) : List ℚ := List.zipWith (· - ·) x y

/-! Watkins' Q-learning, from `src/rsrl/src/control/td/q_learning.rs`.
The struct's `policy` (behaviour) and `target` fields take no part in
`handle_transition`; the `target` greedy policy shares the `q_func`
approximator, so target sampling reads `q_func` directly here (the
shared-handle aliasing itself is modelled separately by the store-based
embedding below). -/

structure QLearning (S : Type) where
  q_func : LinearQ S
  alpha : Parameter
  gamma : Parameter

/-- `QLearning::predict_qsa`, from `src/rsrl/src/control/td/q_learning.rs`:
`self.q_func.evaluate_index(&self.q_func.embed(s), a)` (the source
`.unwrap()`s; the `Option` keeps the failure observable). -/
def QLearning.predict_qsa {S : Type} (m : QLearning S) (s : S) (a : ℕ) :
    Option ℚ :=
  m.q_func.evaluate_index (m.q_func.embed s) a

/-- `QLearning::sample_target`, from
`src/rsrl/src/control/td/q_learning.rs`: `self.target.sample(s)` where
`target` is the `Greedy` policy over the shared `q_func`. -/
def QLearning.sample_target {S : Type} (m : QLearning S) (s : S) : ℕ :=
  Greedy.sample m.q_func s

/-- Residual computed inside `QLearning::handle_transition`, from
`src/rsrl/src/control/td/q_learning.rs` lines 59-70: `reward - Q(s,a)` on
terminal transitions, else `reward + gamma·Q(s-next, a-star) - Q(s,a)` with
`a-star` drawn from the greedy target policy; `none` when a required
prediction `.unwrap()` fails. -/
def QLearning.residual {S : Type} (m : QLearning S) (t : Transition S ℕ) :
    Option ℚ := do
  let s := t.frm.state
  let qsa ← m.predict_qsa s t.action
  if t.terminated then
    pure (t.reward - qsa)
  else
    let ns := t.tto.state
    let na := m.sample_target ns
    let nqsna ← m.predict_qsa ns na
    pure (t.reward + m.gamma.value * nqsna - qsa)

/-- `QLearning::handle_transition`, from
`src/rsrl/src/control/td/q_learning.rs` lines 59-76: compute the residual
(required predictions `.unwrap()`, hence `none` aborts), then
`q_func.update_index(embed(s), action, alpha * residual).ok()` — an update
failure is discarded (`Option.getD`) and the step completes. -/
def QLearning.handle_transition {S : Type} (m : QLearning S)
    (t : Transition S ℕ) : Option (QLearning S) := do
  let s := t.frm.state
  let residual ← m.residual t
  pure { m with q_func :=
    (m.q_func.update_index (m.q_func.embed s) t.action
      (m.alpha.value * residual)).getD m.q_func }

/-- `QLearning::handle_terminal`, from
`src/rsrl/src/control/td/q_learning.rs` lines 45-52: step `alpha` and
`gamma` (the forwarding to the behaviour policy's own `handle_terminal` is
outside this parameter-owning record). -/
def QLearning.handle_terminal {S : Type} (m : QLearning S) : QLearning S :=
  { m with alpha := m.alpha.step, gamma := m.gamma.step }

/-! Persistent Advantage Learning, from `src/rsrl/src/control/td/pal.rs`. -/

structure PAL (S : Type) where
  q_func : LinearQ S
  alpha : Parameter
  gamma : Parameter

/-- Residual computed inside `PAL::handle_transition`, from
`src/rsrl/src/control/td/pal.rs` lines 61-77.  Rust's panicking vector
indexing `qs[i]` is modelled by `List.getD _ 0` (all indices in use are in
range for well-formed instances). -/
def PAL.residual {S : Type} (m : PAL S) (t : Transition S ℕ) : ℚ :=
  let s := t.frm.state
  let phi_s := m.q_func.embed s
  let qs := m.q_func.evaluate phi_s
  if t.terminated then
    t.reward - qs.getD t.action 0
  else
    let ns := t.tto.state
    let nqs := m.q_func.evaluate (m.q_func.embed ns)
    let a_star := Greedy.sample m.q_func s
    let na_star := Greedy.sample m.q_func ns
    let td_error :=
      t.reward + m.gamma.value * nqs.getD a_star 0 - qs.getD t.action 0
    let al_error :=
      td_error - m.alpha.value * (qs.getD a_star 0 - qs.getD t.action 0)
    max al_error
      (td_error - m.alpha.value * (nqs.getD na_star 0 - nqs.getD t.action 0))

/-- `PAL::handle_transition`, from `src/rsrl/src/control/td/pal.rs` lines
57-78: compute the persistent-advantage residual, then
`q_func.update_index(phi_s, action, alpha * residual).ok()`. -/
def PAL.handle_transition {S : Type} (m : PAL S) (t : Transition S ℕ) :
    PAL S :=
  let phi_s := m.q_func.embed t.frm.state
  { m with q_func :=
    (m.q_func.update_index phi_s t.action
      (m.alpha.value * m.residual t)).getD m.q_func }

/-! Greedy-GQ, from `src/rsrl/src/control/gtd/greedy_gq.rs`.  The
`behaviour_policy` takes no part in `handle_transition`; the greedy
`target_policy` shares the `fa_q` approximator. -/

structure GreedyGQ (S : Type) where
  fa_q : LinearQ S
  fa_w : LinearV S
  alpha : Parameter
  beta : Parameter
  gamma : Parameter

/-- `GreedyGQ::handle_transition`, from
`src/rsrl/src/control/gtd/greedy_gq.rs` lines 66-119: required evaluations
are `.unwrap()`ed (monadic bind), both weight updates are `.ok()`ed
(`Option.getD`, so a failed update is discarded while the remaining update
still runs). -/
def GreedyGQ.handle_transition {S : Type} (m : GreedyGQ S)
    (t : Transition S ℕ) : Option (GreedyGQ S) :=
  let s := t.frm.state
  let phi_s := m.fa_w.embed s
  let estimate := m.fa_w.evaluate phi_s
  if t.terminated then do
    let qsa ← m.fa_q.evaluate_index phi_s t.action
    let residual := t.reward - qsa
    pure { m with
      fa_w := (m.fa_w.update phi_s
        (m.alpha.value * m.beta.value * (residual - estimate))).getD m.fa_w,
      fa_q := (m.fa_q.update_index phi_s t.action
        (m.alpha.value * residual)).getD m.fa_q }
  else do
    let ns := t.tto.state
    let na := Greedy.sample m.fa_q ns
    let phi_ns := m.fa_w.embed ns
    let nqsna ← m.fa_q.evaluate_index phi_ns na
    let qsa ← m.fa_q.evaluate_index phi_s t.action
    let residual := t.reward + m.gamma.value * nqsna - qsa
    let update_q :=
      vsub (scale residual phi_s) (scale (estimate * m.gamma.value) phi_ns)
    pure { m with
      fa_w := (m.fa_w.update phi_s
        (m.alpha.value * m.beta.value * (residual - estimate))).getD m.fa_w,
      fa_q := (m.fa_q.update_index update_q t.action
        m.alpha.value).getD m.fa_q }

/-- `GreedyGQ::handle_terminal`, from
`src/rsrl/src/control/gtd/greedy_gq.rs` lines 55-61. -/
def GreedyGQ.handle_terminal {S : Type} (m : GreedyGQ S) : GreedyGQ S :=
  { m with alpha := m.alpha.step, beta := m.beta.step,
           gamma := m.gamma.step }

/-! True-online SARSA(lambda), from
`src/rsrl/src/control/totd/to_sarsa_lambda.rs`.  The stochastic behaviour
policy's `sample` is modelled as a supplied function of the state. -/

structure TOSARSALambda (S : Type) where
  q_func : LinearQ S
  policy : S → ℕ
  alpha : Parameter
  gamma : Parameter
  trace : Trace
  q_old : ℚ

/-- `TOSARSALambda::update_traces`, from
`src/rsrl/src/control/totd/to_sarsa_lambda.rs` lines 48-57: the correction
coefficient uses the trace vector from before the decay
(`self.trace.get().dot(&phi)`), then `trace.decay(decay_rate)` and
`trace.update(&trace_update)`. -/
def TOSARSALambda.update_traces {S : Type} (m : TOSARSALambda S)
    (phi : List ℚ) (decay_rate : ℚ) : TOSARSALambda S :=
  let trace_update :=
    scale (1 - m.alpha.value * decay_rate * dot m.trace.get phi) phi
  { m with trace := (m.trace.decay decay_rate).update trace_update }

/-- `TOSARSALambda::handle_transition`, from
`src/rsrl/src/control/totd/to_sarsa_lambda.rs` lines 72-114: update the
trace with decay `lambda·gamma`, then compute the residual (resetting
`q_old` and fully decaying the trace on terminal transitions), then apply
the two `.ok()`ed weight updates — `alpha·residual` along the trace `z`
and the true-online correction `alpha·(q_old - Q(s,a))` along `phi_s`. -/
def TOSARSALambda.handle_transition {S : Type} (m : TOSARSALambda S)
    (t : Transition S ℕ) : Option (TOSARSALambda S) := do
  let s := t.frm.state
  let phi_s := m.q_func.embed s
  let decay_rate := m.trace.lambda.value * m.gamma.value
  let m1 := m.update_traces phi_s decay_rate
  let z := m1.trace.get
  let qsa ← m1.q_func.evaluate_index phi_s t.action
  let q_old := m1.q_old
  let branch ←
    if t.terminated then
      pure (({ m1 with q_old := 0, trace := m1.trace.decay 0 },
             t.reward - q_old) : TOSARSALambda S × ℚ)
    else do
      let ns := t.tto.state
      let phi_ns := m1.q_func.embed ns
      let na := m1.policy ns
      let nqsna ← m1.q_func.evaluate_index phi_ns na
      pure ({ m1 with q_old := nqsna },
            t.reward + m1.gamma.value * nqsna - q_old)
  let m2 := branch.1
  let residual := branch.2
  let q1 := (m2.q_func.update_index z t.action
    (m2.alpha.value * residual)).getD m2.q_func
  let q2 := (q1.update_index phi_s t.action
    (m2.alpha.value * (q_old - qsa))).getD q1
  pure { m2 with q_func := q2 }

/-- Residual used by the first weight update of
`TOSARSALambda::handle_transition` (the `residual` binding of
`src/rsrl/src/control/totd/to_sarsa_lambda.rs` lines 86-103), given that
the required next-state prediction succeeds with value `nqsna`. -/
def TOSARSALambda.residual {S : Type} (m : TOSARSALambda S)
    (t : Transition S ℕ) (nqsna : ℚ) : ℚ :=
  if t.terminated then t.reward - m.q_old
  else t.reward + m.gamma.value * nqsna - m.q_old

/-! TD-error actor-critic, from
`src/rsrl/src/control/actor_critic/tdac.rs`.  The generic critic `C` and
parameterised policy `P` collaborators are supplied as state types with
their trait methods as function fields. -/

structure TDAC (S A C P : Type) where
  critic : C
  critic_predict_v : C → S → ℚ
  critic_step : C → Transition S A → C
  critic_terminal : C → C
  policy : P
  policy_update : P → S → A → ℚ → P
  policy_terminal : P → P
  alpha : Parameter
  gamma : Parameter

/-- TD error computed inside `TDAC::handle_transition`, from
`src/rsrl/src/control/actor_critic/tdac.rs` lines 56-63 (`self.predict_v`
delegates to the critic). -/
def TDAC.td_error {S A C P : Type} (m : TDAC S A C P)
    (t : Transition S A) : ℚ :=
  let v := m.critic_predict_v m.critic t.frm.state
  if t.terminated then t.reward - v
  else t.reward + m.gamma.value * m.critic_predict_v m.critic t.tto.state - v

/-- `TDAC::handle_transition`, from
`src/rsrl/src/control/actor_critic/tdac.rs` lines 56-67: compute the TD
error, forward the transition to the critic, then
`policy.update(s, action, alpha * td_error)`. -/
def TDAC.handle_transition {S A C P : Type} (m : TDAC S A C P)
    (t : Transition S A) : TDAC S A C P :=
  { m with critic := m.critic_step m.critic t,
           policy := m.policy_update m.policy t.frm.state t.action
             (m.alpha.value * m.td_error t) }

/-- `TDAC::handle_terminal`, from
`src/rsrl/src/control/actor_critic/tdac.rs` lines 40-47: step `alpha` and
`gamma`, forward to critic and policy. -/
def TDAC.handle_terminal {S A C P : Type} (m : TDAC S A C P) :
    TDAC S A C P :=
  { m with alpha := m.alpha.step, gamma := m.gamma.step,
           critic := m.critic_terminal m.critic,
           policy := m.policy_terminal m.policy }

/-! TD-error actor-critic with eligibility traces, from
`src/rsrl/src/control/actor_critic/tdac.rs` (struct `TDACLambda`).  The
policy's gradient matrix and the trace matrix are flattened to `List ℚ`. -/

structure TDACLambda (S A C P : Type) where
  critic : C
  critic_predict_v : C → S → ℚ
  critic_step : C → Transition S A → C
  critic_terminal : C → C
  policy : P
  policy_grad_log : S → A → List ℚ
  policy_update_raw : P → List ℚ → P
  policy_terminal : P → P
  trace : List ℚ
  alpha : Parameter
  gamma : Parameter
  lambda : Parameter

/-- TD error computed inside `TDACLambda::handle_transition`, from
`src/rsrl/src/control/actor_critic/tdac.rs` lines 159-166. -/
def TDACLambda.td_error {S A C P : Type} (m : TDACLambda S A C P)
    (t : Transition S A) : ℚ :=
  let v := m.critic_predict_v m.critic t.frm.state
  if t.terminated then t.reward - v
  else t.reward + m.gamma.value * m.critic_predict_v m.critic t.tto.state - v

/-- `TDACLambda::handle_transition`, from
`src/rsrl/src/control/actor_critic/tdac.rs` lines 158-176: decay the trace
by `gamma·lambda`, accumulate the policy log-gradient, forward to the
critic, then `policy.update_raw(trace * (alpha.value() * td_error))`. -/
def TDACLambda.handle_transition {S A C P : Type} (m : TDACLambda S A C P)
    (t : Transition S A) : TDACLambda S A C P :=
  let td_error := m.td_error t
  let gl_policy := m.policy_grad_log t.frm.state t.action
  let trace :=
    vadd (scale (m.gamma.value * m.lambda.value) m.trace) gl_policy
  { m with trace,
           critic := m.critic_step m.critic t,
           policy := m.policy_update_raw m.policy
             (scale (m.alpha.value * td_error) trace) }

/-- `TDACLambda::handle_terminal`, from
`src/rsrl/src/control/actor_critic/tdac.rs` lines 141-156, reproducing the
source's sequential assignments verbatim: `alpha = alpha.step()`,
`gamma = gamma.step()`, then `lambda = gamma.step()` — the third line reads
the freshly reassigned `gamma`, so `lambda` receives the original `gamma`
stepped twice; the trace is filled with zeros and the call is forwarded to
critic and policy. -/
def TDACLambda.handle_terminal {S A C P : Type} (m : TDACLambda S A C P) :
    TDACLambda S A C P :=
  let alpha := m.alpha.step
  let gamma := m.gamma.step
  let lambda := gamma.step
  { m with alpha := alpha, gamma := gamma, lambda := lambda,
           trace := m.trace.map (fun _ => 0),
           critic := m.critic_terminal m.critic,
           policy := m.policy_terminal m.policy }

/-! Variance TD, from `src/rsrl/src/prediction/td/td_var.rs`. -/

structure VarianceTD (S : Type) where
  value_estimator : LinearV S
  variance_estimator : LinearV S
  alpha : Parameter
  gamma : Parameter

/-- `VarianceTD::compute_value_error`, from
`src/rsrl/src/prediction/td/td_var.rs` lines 31-38:
`reward + value_estimator.state_value(ns) - value_estimator.state_value(s)`
(the source applies no discount factor here). -/
def VarianceTD.compute_value_error {S : Type} (m : VarianceTD S) (s : S)
    (reward : ℚ) (ns : S) : ℚ :=
  reward + m.value_estimator.state_value ns - m.value_estimator.state_value s

/-- `VarianceTD::predict_v`, from `src/rsrl/src/prediction/td/td_var.rs`:
`self.variance_estimator.state_value(s)`. -/
def VarianceTD.predict_v {S : Type} (m : VarianceTD S) (s : S) : ℚ :=
  m.variance_estimator.state_value s

/-- TD error of the variance estimator computed inside
`VarianceTD::handle_transition`, from
`src/rsrl/src/prediction/td/td_var.rs` lines 49-62: the squared value
error is the meta-reward; on non-terminal transitions the bootstrap uses
discount `gamma * gamma`. -/
def VarianceTD.td_error {S A : Type} (m : VarianceTD S)
    (t : Transition S A) : ℚ :=
  let value_error :=
    m.compute_value_error t.frm.state t.reward t.tto.state
  let meta_reward := value_error * value_error
  let v := m.variance_estimator.evaluate
    (m.variance_estimator.embed t.frm.state)
  if t.terminated then meta_reward - v
  else
    let gamma_var := m.gamma.value * m.gamma.value
    meta_reward + gamma_var * m.predict_v t.tto.state - v

/-- `VarianceTD::handle_transition`, from
`src/rsrl/src/prediction/td/td_var.rs` lines 47-65:
`variance_estimator.update(phi_s, alpha * td_error).ok()`. -/
def VarianceTD.handle_transition {S A : Type} (m : VarianceTD S)
    (t : Transition S A) : VarianceTD S :=
  let phi_s := m.variance_estimator.embed t.frm.state
  { m with variance_estimator :=
    (m.variance_estimator.update phi_s
      (m.alpha.value * m.td_error t)).getD m.variance_estimator }

/-! Exponential-utility TD, from `src/rsrl/src/prediction/td/td_exp.rs`.
The transcendental `f64::exp` belongs to the excluded numeric runtime and
is supplied as the function field `fexp`. -/

structure ExponentialTD (S : Type) where
  v_func : LinearV S
  start_state : S
  fexp : ℚ → ℚ
  alpha : Parameter
  rho : Parameter

/-- TD error computed inside `ExponentialTD::handle_transition`, from
`src/rsrl/src/prediction/td/td_exp.rs` lines 39-52: there is no branch on
`t.terminated()`; the reference-state value `v_ss` switches the
normalisation when `|v_ss| < 1e-5`. -/
def ExponentialTD.td_error {S A : Type} (m : ExponentialTD S)
    (t : Transition S A) : ℚ :=
  let v_s := m.v_func.evaluate (m.v_func.embed t.frm.state)
  let v_ns := m.v_func.evaluate (m.v_func.embed t.tto.state)
  let v_ss := m.v_func.evaluate (m.v_func.embed m.start_state)
  let exp_rr := m.fexp (m.rho.value * t.reward)
  if |v_ss| < 1 / 100000 then exp_rr * v_ns - v_s
  else exp_rr / v_ss * v_ns - v_s

/-- `ExponentialTD::handle_transition`, from
`src/rsrl/src/prediction/td/td_exp.rs` lines 38-55:
`v_func.update(phi_s, alpha * td_error).ok()`. -/
def ExponentialTD.handle_transition {S A : Type} (m : ExponentialTD S)
    (t : Transition S A) : ExponentialTD S :=
  let phi_s := m.v_func.embed t.frm.state
  { m with v_func :=
    (m.v_func.update phi_s (m.alpha.value * m.td_error t)).getD m.v_func }

/-! Baseline REINFORCE, from
`src/rsrl/src/control/mc/baseline_reinforce.rs`.  The baseline `B` (a
batch-learning action-value predictor) and the parameterised policy `P`
are supplied as state types with their trait methods as function fields. -/

structure BaselineREINFORCE (S A B P : Type) where
  policy : P
  policy_update : P → S → A → ℚ → P
  baseline : B
  baseline_handle_batch : B → List (Transition S A) → B
  baseline_predict_qsa : B → S → A → ℚ
  alpha : Parameter
  gamma : Parameter

/-- `BaselineREINFORCE::handle_batch`, from
`src/rsrl/src/control/mc/baseline_reinforce.rs` lines 54-67: first the
baseline consumes the whole batch, then one reverse pass
(`batch.into_iter().rev()`) accumulates `ret = reward + gamma·ret` from 0
and updates the policy with `alpha·(ret - baseline(s, action))` at each
step. -/
def BaselineREINFORCE.handle_batch {S A B P : Type}
    (m : BaselineREINFORCE S A B P) (batch : List (Transition S A)) :
    BaselineREINFORCE S A B P :=
  let baseline := m.baseline_handle_batch m.baseline batch
  let fold := batch.reverse.foldl
    (fun (acc : ℚ × P) t =>
      let s := t.frm.state
      let b := m.baseline_predict_qsa baseline s t.action
      let ret := t.reward + m.gamma.value * acc.1
      (ret, m.policy_update acc.2 s t.action (m.alpha.value * (ret - b))))
    (0, m.policy)
  { m with baseline := baseline, policy := fold.2 }

/-! Default predictor methods of the `ActionValuePredictor` trait, from
`src/rsrl/src/core/algorithms.rs` lines 39-49.  A concrete algorithm
either overrides a method (`some` implementation) or inherits the default:
`predict_qsa` falls back to `predict_v(s)` ignoring the action, and
`predict_qs` falls back to `unimplemented!()` — a hard failure modelled as
`none`. -/

structure PredictorVTable (S A : Type) where
  predict_v : S → ℚ
  qsa_override : Option (S → A → ℚ)
  qs_override : Option (S → List ℚ)

/-- `ActionValuePredictor::predict_qsa` dispatch, from
`src/rsrl/src/core/algorithms.rs` lines 41-43: an overriding
implementation wins; the trait default returns `self.predict_v(s)`. -/
def PredictorVTable.predict_qsa {S A : Type} (p : PredictorVTable S A)
    (s : S) (a : A) : ℚ :=
  match p.qsa_override with
  | some f => f s a
  | none => p.predict_v s

/-- `ActionValuePredictor::predict_qs` dispatch, from
`src/rsrl/src/core/algorithms.rs` lines 46-48: an overriding
implementation wins; the trait default is `unimplemented!()`, which never
returns a value (`none`). -/
def PredictorVTable.predict_qs {S A : Type} (p : PredictorVTable S A)
    (s : S) : Option (List ℚ) :=
  match p.qs_override with
  | some f => some (f s)
  | none => none

/-! Shared-approximator handles.  `make_shared` and `Shared<T>` (an
`Rc<RefCell<T>>` wrapper) live in rsrl's `core` module, which is not under
`src/`; following the spec's shared-handle section, an instance heap is
modelled explicitly as a store of approximators, and a `Shared` handle as
an index into that store, so that aliasing is observable. -/

/-- Modelled from the spec: the heap of live Q-approximator instances. -/
abbrev Store (S : Type) : Type := List (LinearQ S)

/-- Modelled from the spec: `make_shared(q)` allocates one approximator
instance on the heap and returns its handle; `Shared::clone` copies the
handle (the returned index), never the instance. -/
def make_shared {S : Type} (st : Store S) (q : LinearQ S) : Store S × ℕ :=
  (st ++ [q], st.length)

/-- Modelled from the spec: reading an approximator instance through a
shared handle (`borrow`). -/
def Store.read {S : Type} (st : Store S) (h : ℕ) : Option (LinearQ S) :=
  st.get? h

/-- Modelled from the spec: replacing the approximator instance behind a
shared handle (`borrow_mut` followed by a write). -/
def Store.write {S : Type} (st : Store S) (h : ℕ) (q : LinearQ S) :
    Store S :=
  st.set h q

/-- `Greedy::new(q_func)` holding its shared handle (the greedy policy
type itself is not under `src/`; modelled from the spec's shared-handle
pattern). -/
structure GreedyHandle where
  q_func : ℕ

/-- Handle-level view of the `QLearning` struct built by `QLearning::new`,
from `src/rsrl/src/control/td/q_learning.rs` lines 16-43. -/
structure QLearningShared where
  q_func : ℕ
  target : GreedyHandle
  alpha : Parameter
  gamma : Parameter

/-- `QLearning::new`, from `src/rsrl/src/control/td/q_learning.rs` lines
25-43: `let q_func = make_shared(q_func)`, store `q_func.clone()` as the
learner's own handle and hand the same shared handle to
`Greedy::new(q_func)`. -/
def QLearningShared.new {S : Type} (st : Store S) (q : LinearQ S)
    (alpha gamma : Parameter) : Store S × QLearningShared :=
  let alloc := make_shared st q
  (alloc.1,
   { q_func := alloc.2, target := ⟨alloc.2⟩, alpha := alpha, gamma := gamma })

/-- Handle-level view of the `PAL` struct built by `PAL::new`, from
`src/rsrl/src/control/td/pal.rs` lines 12-40. -/
structure PALShared where
  q_func : ℕ
  target : GreedyHandle
  alpha : Parameter
  gamma : Parameter

/-- `PAL::new`, from `src/rsrl/src/control/td/pal.rs` lines 22-40: same
shared-handle wiring as `QLearning::new`. -/
def PALShared.new {S : Type} (st : Store S) (q : LinearQ S)
    (alpha gamma : Parameter) : Store S × PALShared :=
  let alloc := make_shared st q
  (alloc.1,
   { q_func := alloc.2, target := ⟨alloc.2⟩, alpha := alpha, gamma := gamma })

/-- Handle-level view of the `GreedyGQ` struct built by `GreedyGQ::new`,
from `src/rsrl/src/control/gtd/greedy_gq.rs` lines 13-52 (`fa_w` is owned
by value; only `fa_q` is shared with the greedy target policy). -/
structure GreedyGQShared (S : Type) where
  fa_q : ℕ
  fa_w : LinearV S
  target_policy : GreedyHandle
  alpha : Parameter
  beta : Parameter
  gamma : Parameter

/-- `GreedyGQ::new`, from `src/rsrl/src/control/gtd/greedy_gq.rs` lines
24-52: `let fa_q = make_shared(fa_q)`, store `fa_q.clone()` and hand the
same shared handle to `Greedy::new(fa_q)`. -/
def GreedyGQShared.new {S : Type} (st : Store S) (fa_q : LinearQ S)
    (fa_w : LinearV S) (alpha beta gamma : Parameter) :
    Store S × GreedyGQShared S :=
  let alloc := make_shared st fa_q
  (alloc.1,
   { fa_q := alloc.2, fa_w := fa_w, target_policy := ⟨alloc.2⟩,
     alpha := alpha, beta := beta, gamma := gamma })

/-! Concrete instances used to evaluate the embeddings on the spec's
numeric scenarios and on failing inputs. -/

/-- A `TDACLambda` over trivial critic/policy collaborators with constant
schedules `alpha = 0.1`, `gamma = 0.9`, `lambda = 0.5` and a non-zero
trace. -/
def c1_tdacl : TDACLambda Unit Unit Unit Unit :=
  { critic := (), critic_predict_v := fun _ _ => 0,
    critic_step := fun c _ => c, critic_terminal := id,
    policy := (), policy_grad_log := fun _ _ => [0, 0],
    policy_update_raw := fun p _ => p, policy_terminal := id,
    trace := [1, 2],
    alpha := Parameter.const (1/10), gamma := Parameter.const (9/10),
    lambda := Parameter.const (1/2) }

/-- The spec's Q-learning scenario: single-feature linear Q-function with
weight 0, features identically 1, `alpha = 0.1`, `gamma = 0.9`. -/
def c3_q1 : QLearning Unit :=
  ⟨⟨fun _ => [1], [[0]]⟩, Parameter.const (1/10), Parameter.const (9/10)⟩

/-- Terminal transition with reward 1 for the Q-learning scenario. -/
def c3_t1 : Transition Unit ℕ := ⟨.full (), 0, 1, .terminal ()⟩

/-- The spec's non-terminal Q-learning scenario: the acting action's weight
is 0 and a second action realises `Q(s-next, a-star) = 2`. -/
def c3_q2 : QLearning Unit :=
  ⟨⟨fun _ => [1], [[0], [2]]⟩, Parameter.const (1/10),
   Parameter.const (9/10)⟩

/-- Non-terminal transition with reward 1 for the Q-learning scenario. -/
def c3_t2 : Transition Unit ℕ := ⟨.full (), 0, 1, .full ()⟩

/-- A `VarianceTD` with both estimators at weight 0 over the constant
feature 1, `alpha = 1`, `gamma = 1`. -/
def c2_var : VarianceTD Unit :=
  ⟨⟨fun _ => [1], [0]⟩, ⟨fun _ => [1], [0]⟩, Parameter.const 1,
   Parameter.const 1⟩

/-- Terminal transition with reward 2 for the `VarianceTD` instance: its
squared value error (meta-reward) is 4. -/
def c2_t : Transition Unit Unit := ⟨.full (), (), 2, .terminal ()⟩

/-- Spec's return law `G ← reward + γ·G`, written as a forward recursion
over the list of remaining rewards: the return of a suffix. -/
def discounted_return (g : ℚ) : List ℚ → ℚ
  | [] => 0
  | r :: rest => r + g * discounted_return g rest

/-- Scalars `α·(G_k − baseline(s_k, a_k))` the spec expects the policy to
receive, listed in batch (oldest-first) order; `G_k` is the discounted
return of the batch suffix starting at position `k`. -/
def reinforce_scalars {S A : Type} (g a : ℚ) (pq : S → A → ℚ) :
    List (Transition S A) → List ℚ
  | [] => []
  | t :: rest =>
    a * (discounted_return g ((t :: rest).map (fun x => x.reward))
      - pq t.frm.state t.action) :: reinforce_scalars g a pq rest

/-- A `BaselineREINFORCE` whose policy records every scalar it is updated
with (`P := List ℚ`), over a trivial baseline predicting 0, with
`alpha = 1` and `gamma = 1`. -/
def c4_m : BaselineREINFORCE Unit Unit Unit (List ℚ) :=
  { policy := [], policy_update := fun log _ _ x => log ++ [x],
    baseline := (), baseline_handle_batch := fun b _ => b,
    baseline_predict_qsa := fun _ _ _ => 0,
    alpha := Parameter.const 1, gamma := Parameter.const 1 }

/-- The spec's 3-step episode with rewards `[1, 1, 1]`, oldest first. -/
def c4_batch : List (Transition Unit Unit) :=
  [⟨.full (), (), 1, .full ()⟩, ⟨.full (), (), 1, .full ()⟩,
   ⟨.full (), (), 1, .terminal ()⟩]

/-- A two-action `PAL` over the same scenario Q-function as `c3_q2`. -/
def c6_pal : PAL Unit :=
  ⟨⟨fun _ => [1], [[0], [2]]⟩, Parameter.const (1/10),
   Parameter.const (9/10)⟩

/-- A `TOSARSALambda` with a zeroed two-component trace, for the trace-law
witness. -/
def c5_m : TOSARSALambda Unit :=
  ⟨⟨fun _ => [1, 1], [[0, 0]]⟩, fun _ => 0, Parameter.const (1/2),
   Parameter.const (3/4), ⟨[0, 0], Parameter.const (1/2)⟩, 0⟩

/-- A `GreedyGQ` with in-range shapes, for the terminal-error witness. -/
def c2_ggq : GreedyGQ Unit :=
  ⟨⟨fun _ => [1], [[3]]⟩, ⟨fun _ => [1], [5]⟩, Parameter.const 1,
   Parameter.const 1, Parameter.const 1⟩

/-- A `TDAC` over trivial collaborators whose critic predicts 5. -/
def c2_tdac : TDAC Unit Unit Unit Unit :=
  ⟨(), fun _ _ => 5, fun c _ => c, id, (), fun p _ _ _ => p, id,
   Parameter.const 1, Parameter.const 1⟩

/-- A `TOSARSALambda` carrying `q_old = 7`, so that the terminal error
`reward − q_old` differs visibly from `reward − Q(s,a)`. -/
def c2_tos : TOSARSALambda Unit :=
  ⟨⟨fun _ => [1], [[0]]⟩, fun _ => 0, Parameter.const 1,
   Parameter.const 1, ⟨[0], Parameter.const (1/2)⟩, 7⟩

/-- Terminal transition with action 0 and reward 1 over integer actions
(the same data as `c3_t1`). -/
def c8_t5 : Transition Unit ℕ := ⟨.full (), 5, 1, .terminal ()⟩

/-- A `QLearning` whose weight row is longer than the feature vector: the
evaluation succeeds (the dot product truncates) but the shape-checked
update fails. -/
def c8_ql : QLearning Unit :=
  ⟨⟨fun _ => [1], [[1, 2]]⟩, Parameter.const 1, Parameter.const 1⟩

/-- A `PAL` with the same shape mismatch as `c8_ql`. -/
def c8_pal : PAL Unit :=
  ⟨⟨fun _ => [1], [[1, 2]]⟩, Parameter.const 1, Parameter.const 1⟩

/-- A `GreedyGQ` whose secondary estimator `fa_w` has mismatched shape (its
update fails) while the primary `fa_q` update is well-shaped. -/
def c8_ggq : GreedyGQ Unit :=
  ⟨⟨fun _ => [1], [[3]]⟩, ⟨fun _ => [1], [5, 6]⟩, Parameter.const 1,
   Parameter.const 1, Parameter.const 1⟩

/-- A `TOSARSALambda` whose trace is empty (so the trace-directed first
update fails on shape) while the feature-directed second update is
well-shaped; `q_old = 7`. -/
def c8_tos : TOSARSALambda Unit :=
  ⟨⟨fun _ => [1], [[0]]⟩, fun _ => 0, Parameter.const 1,
   Parameter.const 1, ⟨[], Parameter.const (1/2)⟩, 7⟩

/-- A `VarianceTD` whose variance estimator has mismatched shape, so its
update fails. -/
def c8_var : VarianceTD Unit :=
  ⟨⟨fun _ => [1], [0]⟩, ⟨fun _ => [1], [0, 0]⟩, Parameter.const 1,
   Parameter.const 1⟩

/-- An `ExponentialTD` whose value function has mismatched shape, so its
update fails. -/
def c8_exp : ExponentialTD Unit :=
  ⟨⟨fun _ => [1], [0, 0]⟩, (), fun _ => 1, Parameter.const 1,
   Parameter.const 1⟩

/-- The claim's formula for PAL's non-terminal residual, written from the
spec's words: `td = reward + γ·Q(s-next, a-star) − Q(s,a)`,
`al = td − α·(Q(s,a-star) − Q(s,a))`, and the persistent error
`max(al, td − α·(Q(s-next, na-star) − Q(s-next, a)))`, with `a-star` the
greedy action at `s` and `na-star` the greedy action at `s-next`, and every
`Q` value the dot product of the action's weight row with the state's
features. -/
def PAL.residual_spec {S : Type} (m : PAL S) (t : Transition S ℕ) : ℚ :=
  let phi_s := m.q_func.embed t.frm.state
  let phi_ns := m.q_func.embed t.tto.state
  let q : ℕ → ℚ := fun a => dot (m.q_func.weights.getD a []) phi_s
  let nq : ℕ → ℚ := fun a => dot (m.q_func.weights.getD a []) phi_ns
  let a_star := Greedy.sample m.q_func t.frm.state
  let na_star := Greedy.sample m.q_func t.tto.state
  let td := t.reward + m.gamma.value * nq a_star - q t.action
  let al := td - m.alpha.value * (q a_star - q t.action)
  max al (td - m.alpha.value * (nq na_star - nq t.action))

end Rsrl

namespace Rsrl

/-- Writing at the index of the last-appended element and reading it back
yields the written value (allocation via `make_shared` returns an in-range
handle). -/
theorem set_append_get {α : Type} (l : List α) (q q' : α) :
    ((l ++ [q]).set l.length q').get? l.length = some q' := by
  induction l with
  | nil => rfl
  | cons x xs ih => simp only [List.cons_append, List.set, List.length_cons, List.get?]; exact ih

/-- Claim C1: after one `handle_terminal()` every owned `Parameter` should
hold its own pre-call value advanced by one `step()` and every trace should
be zero.  Evaluating `TDACLambda::handle_terminal` at constant schedules
`alpha = 0.1`, `gamma = 0.9`, `lambda = 0.5` shows the code assigns
`lambda` the freshly stepped `gamma`'s value `0.9` — not `lambda.step()`
whose value is `0.5` — while `alpha` and `gamma` are stepped correctly and
the trace is zeroed. -/
theorem claim_C1_tdaclambda_terminal_param_bug :
    c1_tdacl.handle_terminal.lambda.value = 9/10
    ∧ c1_tdacl.lambda.step.value = 1/2
    ∧ c1_tdacl.handle_terminal.lambda.value ≠ c1_tdacl.lambda.step.value
    ∧ c1_tdacl.handle_terminal.trace = [0, 0]
    ∧ c1_tdacl.handle_terminal.alpha.value = c1_tdacl.alpha.step.value
    ∧ c1_tdacl.handle_terminal.gamma.value = c1_tdacl.gamma.step.value := by
  refine ⟨rfl, rfl, ?_, rfl, rfl, rfl⟩
  show (9/10 : ℚ) ≠ 1/2
  norm_num

/-- Indexing the evaluated Q-vector agrees with the dot product of the
indexed weight row (out of range, both sides are zero since the dot
product with the empty row is empty). -/
theorem evaluate_getD {S : Type} (q : LinearQ S) (phi : List ℚ) (a : ℕ) :
    (q.evaluate phi).getD a 0 = dot (q.weights.getD a []) phi := by
  unfold LinearQ.evaluate
  rw [List.getD_eq_getElem?_getD, List.getD_eq_getElem?_getD,
    List.getElem?_map]
  cases h : q.weights[a]? with
  | none => simp [dot]
  | some w => simp

/-- Claim C3: `QLearning::handle_transition` computes
`residual = reward - Q(s,a)` on terminal transitions, else
`reward + gamma·Q(s-next, a-star) - Q(s,a)` with `a-star` sampled from the
greedy target policy, and updates the Q-function at `(s, action)` by
`alpha·residual`; on the spec's single-feature scenario (weight 0,
features 1, `alpha = 0.1`, `gamma = 0.9`) a terminal reward-1 transition
gives residual 1 and post-update weight `0.1`, and a non-terminal
transition with `Q(s-next, a-star) = 2` gives residual `2.8` and
post-update weight `0.28`. -/
theorem claim_C3_qlearning_residual_and_update :
    (∀ (S : Type) (m : QLearning S) (t : Transition S ℕ) (qsa : ℚ),
        t.terminated = true →
        m.predict_qsa t.frm.state t.action = some qsa →
        m.residual t = some (t.reward - qsa))
    ∧ (∀ (S : Type) (m : QLearning S) (t : Transition S ℕ) (qsa nq : ℚ),
        t.terminated = false →
        m.predict_qsa t.frm.state t.action = some qsa →
        m.predict_qsa t.tto.state (m.sample_target t.tto.state) = some nq →
        m.residual t = some (t.reward + m.gamma.value * nq - qsa))
    ∧ (∀ (S : Type) (m : QLearning S) (t : Transition S ℕ) (r : ℚ),
        m.residual t = some r →
        m.handle_transition t =
          some ({ m with
                  q_func := (m.q_func.update_index
                    (m.q_func.embed t.frm.state) t.action
                    (m.alpha.value * r)).getD m.q_func }))
    ∧ c3_q1.residual c3_t1 = some 1
    ∧ (c3_q1.handle_transition c3_t1).map (fun x => x.q_func.weights)
        = some [[1/10]]
    ∧ c3_q2.residual c3_t2 = some (14/5)
    ∧ (c3_q2.handle_transition c3_t2).map (fun x => x.q_func.weights)
        = some [[7/25], [2]] := by
  refine ⟨?_, ?_, ?_, ?_, ?_, ?_, ?_⟩
  · intro S m t qsa hterm hpred
    simp [QLearning.residual, hterm, hpred]
  · intro S m t qsa nq hterm hp1 hp2
    simp [QLearning.residual, hterm, hp1, hp2]
  · intro S m t r hres
    simp [QLearning.handle_transition, hres]
  · norm_num [c3_q1, c3_t1, QLearning.residual, QLearning.predict_qsa,
      QLearning.sample_target, Greedy.sample, argmaxList, LinearQ.evaluate,
      LinearQ.evaluate_index, dot, Transition.terminated,
      Observation.is_terminal, Observation.state, Parameter.const]
  · norm_num [c3_q1, c3_t1, QLearning.handle_transition, QLearning.residual,
      QLearning.predict_qsa, QLearning.sample_target, Greedy.sample,
      argmaxList, LinearQ.evaluate, LinearQ.evaluate_index,
      LinearQ.update_index, dot, vadd, scale, Transition.terminated,
      Observation.is_terminal, Observation.state, Parameter.const]
  · norm_num [c3_q2, c3_t2, QLearning.residual, QLearning.predict_qsa,
      QLearning.sample_target, Greedy.sample, argmaxList, LinearQ.evaluate,
      LinearQ.evaluate_index, dot, Transition.terminated,
      Observation.is_terminal, Observation.state, Parameter.const,
      List.range_succ]
  · norm_num [c3_q2, c3_t2, QLearning.handle_transition, QLearning.residual,
      QLearning.predict_qsa, QLearning.sample_target, Greedy.sample,
      argmaxList, LinearQ.evaluate, LinearQ.evaluate_index,
      LinearQ.update_index, dot, vadd, scale, Transition.terminated,
      Observation.is_terminal, Observation.state, Parameter.const,
      List.range_succ]

/-- Witness for C3: the terminal scenario discharges the hypotheses of the
general terminal-residual part at a concrete input. -/
theorem claim_C3_qlearning_residual_and_update_witness :
    c3_t1.terminated = true
    ∧ c3_q1.predict_qsa c3_t1.frm.state c3_t1.action = some 0
    ∧ c3_q1.residual c3_t1 = some (c3_t1.reward - 0) := by
  refine ⟨rfl, ?hp, ?_⟩
  case hp =>
    simp [c3_q1, c3_t1, QLearning.predict_qsa, LinearQ.evaluate_index, dot,
      Observation.state]
  case _ =>
    exact claim_C3_qlearning_residual_and_update.1 Unit c3_q1 c3_t1 0 rfl
      (by simp [c3_q1, c3_t1, QLearning.predict_qsa, LinearQ.evaluate_index,
        dot, Observation.state])

/-- Claim C9: when no overriding implementation is installed, the default
`predict_qsa(s, a)` returns exactly `predict_v(s)` for every action (the
action is ignored), and the default `predict_qs(s)` signals the
unsupported-capability hard failure (`unimplemented!()`, which never
returns a value) for every state. -/
theorem claim_C9_default_predictors :
    ∀ (S A : Type) (p : PredictorVTable S A),
      (p.qsa_override = none →
        ∀ (s : S) (a : A), p.predict_qsa s a = p.predict_v s)
      ∧ (p.qs_override = none → ∀ s : S, p.predict_qs s = none) := by
  intro S A p
  constructor
  · intro h s a
    simp [PredictorVTable.predict_qsa, h]
  · intro h s
    simp [PredictorVTable.predict_qs, h]

/-- Witness for C9 at a concrete predictor with no overrides. -/
theorem claim_C9_default_predictors_witness :
    (⟨fun _ => (3 : ℚ), none, none⟩ :
        PredictorVTable Unit Unit).predict_qsa () ()
      = (⟨fun _ => (3 : ℚ), none, none⟩ :
        PredictorVTable Unit Unit).predict_v ()
    ∧ (⟨fun _ => (3 : ℚ), none, none⟩ :
        PredictorVTable Unit Unit).predict_qs () = none :=
  ⟨(claim_C9_default_predictors Unit Unit _).1 rfl () (),
   (claim_C9_default_predictors Unit Unit _).2 rfl ()⟩

/-- Claim C10: for `QLearning`, `PAL` and `GreedyGQ`, the constructor's
`q_func` field and the greedy target policy hold one and the same shared
approximator instance (equal handles into the instance store), so a weight
write issued through the algorithm's handle is returned by the target
policy's very next read. -/
theorem claim_C10_shared_q_func_single_instance :
    ∀ (S : Type) (st : Store S) (q : LinearQ S) (w : LinearV S)
      (a b g : Parameter),
      ((QLearningShared.new st q a g).2.q_func
          = (QLearningShared.new st q a g).2.target.q_func
        ∧ ∀ q' : LinearQ S,
          Store.read
            (Store.write (QLearningShared.new st q a g).1
              (QLearningShared.new st q a g).2.q_func q')
            (QLearningShared.new st q a g).2.target.q_func = some q')
      ∧ ((PALShared.new st q a g).2.q_func
          = (PALShared.new st q a g).2.target.q_func
        ∧ ∀ q' : LinearQ S,
          Store.read
            (Store.write (PALShared.new st q a g).1
              (PALShared.new st q a g).2.q_func q')
            (PALShared.new st q a g).2.target.q_func = some q')
      ∧ ((GreedyGQShared.new st q w a b g).2.fa_q
          = (GreedyGQShared.new st q w a b g).2.target_policy.q_func
        ∧ ∀ q' : LinearQ S,
          Store.read
            (Store.write (GreedyGQShared.new st q w a b g).1
              (GreedyGQShared.new st q w a b g).2.fa_q q')
            (GreedyGQShared.new st q w a b g).2.target_policy.q_func
            = some q') := by
  intro S st q w a b g
  refine ⟨⟨rfl, fun q' => ?_⟩, ⟨rfl, fun q' => ?_⟩, ⟨rfl, fun q' => ?_⟩⟩
  all_goals
    exact set_append_get st q q'

/-- Dot product with an all-zero vector vanishes. -/
theorem dot_replicate_zero (n : ℕ) (xs : List ℚ) :
    dot (List.replicate n 0) xs = 0 := by
  induction xs generalizing n with
  | nil => simp [dot]
  | cons x xs ih =>
    cases n with
    | zero => simp [dot]
    | succ k =>
      simp only [List.replicate_succ, dot, List.zipWith_cons_cons,
        List.sum_cons, zero_mul, zero_add]
      exact ih k

/-- Adding a vector to a matching all-zero vector returns it unchanged. -/
theorem vadd_replicate_zero (xs : List ℚ) :
    vadd (List.replicate xs.length 0) xs = xs := by
  induction xs with
  | nil => rfl
  | cons x xs ih =>
    simp only [List.length_cons, List.replicate_succ, vadd,
      List.zipWith_cons_cons, zero_add]
    exact congrArg (x :: ·) ih

/-- Scaling by one is the identity. -/
theorem scale_one (xs : List ℚ) : scale 1 xs = xs := by
  simp [scale]

/-- Componentwise form of a decayed-plus-scaled vector combination. -/
theorem vadd_scale_getD (d c : ℚ) (z phi : List ℚ) (i : ℕ)
    (hi : i < (vadd (scale d z) (scale c phi)).length) :
    (vadd (scale d z) (scale c phi)).getD i 0
      = d * z.getD i 0 + c * phi.getD i 0 := by
  induction z generalizing phi i with
  | nil => simp [vadd, scale] at hi
  | cons a z ih =>
    cases phi with
    | nil => simp [vadd, scale] at hi
    | cons b phi =>
      cases i with
      | zero => simp [vadd, scale]
      | succ j =>
        simp only [vadd, scale, List.map_cons, List.zipWith_cons_cons,
          List.length_cons, List.getD_cons_succ] at hi ⊢
        exact ih phi j (by simpa [vadd, scale] using Nat.lt_of_succ_lt_succ hi)

/-- `update_traces` leaves the Q-function untouched. -/
theorem update_traces_q_func {S : Type} (m : TOSARSALambda S)
    (phi : List ℚ) (d : ℚ) : (m.update_traces phi d).q_func = m.q_func :=
  rfl

/-- `update_traces` leaves the learning rate untouched. -/
theorem update_traces_alpha {S : Type} (m : TOSARSALambda S)
    (phi : List ℚ) (d : ℚ) : (m.update_traces phi d).alpha = m.alpha :=
  rfl

/-- `update_traces` leaves the carried `q_old` untouched. -/
theorem update_traces_q_old {S : Type} (m : TOSARSALambda S)
    (phi : List ℚ) (d : ℚ) : (m.update_traces phi d).q_old = m.q_old :=
  rfl

/-- The reverse-order fold of `handle_batch` computes the discounted
suffix returns: the accumulator ends at the full batch's return and the
log receives, in processing order (newest transition first), the scalars
of `reinforce_scalars` reversed. -/
theorem reinforce_fold {S A : Type} (g a : ℚ) (pq : S → A → ℚ)
    (batch : List (Transition S A)) :
    ∀ p0 : List ℚ,
      batch.reverse.foldl
        (fun (acc : ℚ × List ℚ) t =>
          (t.reward + g * acc.1,
           acc.2 ++ [a * (t.reward + g * acc.1 - pq t.frm.state t.action)]))
        (0, p0)
      = (discounted_return g (batch.map (fun x => x.reward)),
         p0 ++ (reinforce_scalars g a pq batch).reverse) := by
  induction batch with
  | nil => intro p0; simp [discounted_return, reinforce_scalars]
  | cons t rest ih =>
    intro p0
    rw [List.reverse_cons, List.foldl_append, ih p0]
    simp [discounted_return, reinforce_scalars, List.reverse_cons]

/-- Claim C4: `BaselineREINFORCE::handle_batch` first hands the whole
batch to the baseline, then performs one reverse pass accumulating
`G := reward + gamma·G` from 0 and updating the policy with
`alpha·(G − baseline(s,a))` at each step; with a scalar-recording policy
the recorded scalars are exactly the discounted suffix returns (oldest
transition last), and on a 3-step episode with rewards `[1,1,1]` and
`gamma = 1` the recorded returns are `[1, 2, 3]` in processing order. -/
theorem claim_C4_baseline_reinforce_reverse_returns :
    (∀ (S A B P : Type) (m : BaselineREINFORCE S A B P)
        (batch : List (Transition S A)),
        (m.handle_batch batch).baseline
          = m.baseline_handle_batch m.baseline batch)
    ∧ (∀ (S A B : Type) (b0 : B) (hb : B → List (Transition S A) → B)
        (pq : B → S → A → ℚ) (al ga : Parameter) (p0 : List ℚ)
        (batch : List (Transition S A)),
        (BaselineREINFORCE.handle_batch
          ⟨p0, fun log _ _ x => log ++ [x], b0, hb, pq, al, ga⟩
          batch).policy
          = p0 ++ (reinforce_scalars ga.value al.value
              (pq (hb b0 batch)) batch).reverse)
    ∧ (c4_m.handle_batch c4_batch).policy = [1, 2, 3] := by
  refine ⟨?_, ?_, ?_⟩
  · intro S A B P m batch
    rfl
  · intro S A B b0 hb pq al ga p0 batch
    exact congrArg Prod.snd
      (reinforce_fold ga.value al.value (pq (hb b0 batch)) batch p0)
  · norm_num [c4_m, c4_batch, BaselineREINFORCE.handle_batch,
      Observation.state, Parameter.const]

/-- Claim C5: `TOSARSALambda::update_traces` realises the true-online
law `z-new = d·z + (1 − α·d·(z·φ))·φ` componentwise, with the inner
product taken on the trace from before the decay; with a zero trace the
updated trace equals `φ`. -/
theorem claim_C5_true_online_trace_law :
    (∀ (S : Type) (m : TOSARSALambda S) (phi : List ℚ) (d : ℚ) (i : ℕ),
        i < (m.update_traces phi d).trace.weights.length →
        (m.update_traces phi d).trace.weights.getD i 0
          = d * m.trace.weights.getD i 0
            + (1 - m.alpha.value * d * dot m.trace.weights phi)
              * phi.getD i 0)
    ∧ (∀ (S : Type) (m : TOSARSALambda S) (phi : List ℚ) (d : ℚ),
        m.trace.weights = List.replicate phi.length 0 →
        (m.update_traces phi d).trace.weights = phi) := by
  constructor
  · intro S m phi d i hi
    exact vadd_scale_getD d _ m.trace.weights phi i hi
  · intro S m phi d h
    show vadd (scale d m.trace.weights)
      (scale (1 - m.alpha.value * d * dot m.trace.weights phi) phi) = phi
    rw [h, dot_replicate_zero, mul_zero, sub_zero, scale_one]
    have hz : scale d (List.replicate phi.length 0)
        = List.replicate phi.length 0 := by
      simp [scale]
    rw [hz]
    exact vadd_replicate_zero phi

/-- Witness for C5 at a concrete trace holder with zero trace `[0, 0]`,
feature vector `[1, 2]` and decay rate 3. -/
theorem claim_C5_true_online_trace_law_witness :
    ((c5_m.update_traces [1, 2] 3).trace.weights.getD 0 0
      = 3 * c5_m.trace.weights.getD 0 0
        + (1 - c5_m.alpha.value * 3 * dot c5_m.trace.weights [1, 2])
          * ([1, 2] : List ℚ).getD 0 0)
    ∧ (c5_m.update_traces [1, 2] 3).trace.weights = [1, 2] :=
  ⟨claim_C5_true_online_trace_law.1 Unit c5_m [1, 2] 3 0
    (by simp [c5_m, TOSARSALambda.update_traces, Trace.decay, Trace.update,
      Trace.get, vadd, scale]),
   claim_C5_true_online_trace_law.2 Unit c5_m [1, 2] 3 rfl⟩

/-- Claim C6: on every non-terminal transition, `PAL::handle_transition`
uses exactly the persistent-advantage residual
`max(al, td − α·(Q(s-next, na-star) − Q(s-next, a)))` with
`td = reward + γ·Q(s-next, a-star) − Q(s,a)` and
`al = td − α·(Q(s,a-star) − Q(s,a))`, where `a-star` and `na-star` are the
greedy actions at `s` and `s-next`, and applies the weight update
`alpha·residual` at `(s, t.action)`. -/
theorem claim_C6_pal_persistent_residual :
    ∀ (S : Type) (m : PAL S) (t : Transition S ℕ),
      t.terminated = false →
      m.residual t = m.residual_spec t
      ∧ m.handle_transition t
        = { m with q_func := (m.q_func.update_index
            (m.q_func.embed t.frm.state) t.action
            (m.alpha.value * m.residual t)).getD m.q_func } := by
  intro S m t hterm
  constructor
  · simp only [PAL.residual, PAL.residual_spec, hterm, Bool.false_eq_true,
      if_false, evaluate_getD]
  · rfl

/-- Witness for C6 at the two-action scenario: the persistent residual is
`max(2.6, 2.6) = 2.6`. -/
theorem claim_C6_pal_persistent_residual_witness :
    c3_t2.terminated = false ∧ c6_pal.residual c3_t2 = 13/5 := by
  refine ⟨rfl, ?_⟩
  have h := (claim_C6_pal_persistent_residual Unit c6_pal c3_t2 rfl).1
  rw [h]
  norm_num [PAL.residual_spec, c6_pal, c3_t2, Greedy.sample, argmaxList,
    LinearQ.evaluate, dot, Observation.state, Parameter.const,
    List.range_succ]

/-- Claim C7: `VarianceTD::handle_transition` computes the ordinary value
TD error from the externally supplied value estimator (reward plus the
next-state value minus the current value), squares it into a meta-reward,
and runs a TD update on the variance estimator with discount `gamma²`:
the variance error is `meta − V-var(s)` on terminal transitions and
`meta + gamma²·V-var(s-next) − V-var(s)` otherwise, the variance weights
move by `alpha` times that error, and the value estimator is untouched. -/
theorem claim_C7_variance_td_meta_update :
    ∀ (S A : Type) (m : VarianceTD S) (t : Transition S A),
      (m.compute_value_error t.frm.state t.reward t.tto.state
        = t.reward + m.value_estimator.state_value t.tto.state
          - m.value_estimator.state_value t.frm.state)
      ∧ (m.td_error t
        = if t.terminated then
            (m.compute_value_error t.frm.state t.reward t.tto.state) ^ 2
              - m.variance_estimator.state_value t.frm.state
          else
            (m.compute_value_error t.frm.state t.reward t.tto.state) ^ 2
              + m.gamma.value ^ 2
                * m.variance_estimator.state_value t.tto.state
              - m.variance_estimator.state_value t.frm.state)
      ∧ ((m.handle_transition t).variance_estimator
        = (m.variance_estimator.update
            (m.variance_estimator.embed t.frm.state)
            (m.alpha.value * m.td_error t)).getD m.variance_estimator)
      ∧ (m.handle_transition t).value_estimator = m.value_estimator := by
  intro S A m t
  refine ⟨rfl, ?_, rfl, rfl⟩
  unfold VarianceTD.td_error
  cases h : t.terminated with
  | true => simp [h, LinearV.state_value, sq]
  | false => simp [h, VarianceTD.predict_v, LinearV.state_value, sq]

/-- Claim C2 (amended): on terminal transitions Q-learning, PAL, Greedy-GQ,
TDAC and TDACLambda use the error `reward − predict(s)` exactly, with no
bootstrapped term and no discount; VarianceTD uses its squared-error
meta-reward minus the variance prediction; TOSARSALambda uses
`reward − q_old` with the estimate carried from the previous step; and
ExponentialTD does not branch on termination at all. -/
theorem claim_C2_terminal_error_per_algorithm :
    (∀ (S : Type) (m : QLearning S) (t : Transition S ℕ) (qsa : ℚ),
        t.terminated = true →
        m.predict_qsa t.frm.state t.action = some qsa →
        m.residual t = some (t.reward - qsa))
    ∧ (∀ (S : Type) (m : PAL S) (t : Transition S ℕ),
        t.terminated = true →
        m.residual t = t.reward
          - (m.q_func.evaluate (m.q_func.embed t.frm.state)).getD t.action 0)
    ∧ (∀ (S : Type) (m : GreedyGQ S) (t : Transition S ℕ) (qsa : ℚ),
        t.terminated = true →
        m.fa_q.evaluate_index (m.fa_w.embed t.frm.state) t.action
          = some qsa →
        m.handle_transition t = some ({ m with
            fa_w := (m.fa_w.update (m.fa_w.embed t.frm.state)
              (m.alpha.value * m.beta.value * ((t.reward - qsa)
                - m.fa_w.evaluate (m.fa_w.embed t.frm.state)))).getD m.fa_w,
            fa_q := (m.fa_q.update_index (m.fa_w.embed t.frm.state) t.action
              (m.alpha.value * (t.reward - qsa))).getD m.fa_q }))
    ∧ (∀ (S A C P : Type) (m : TDAC S A C P) (t : Transition S A),
        t.terminated = true →
        m.td_error t = t.reward - m.critic_predict_v m.critic t.frm.state)
    ∧ (∀ (S A C P : Type) (m : TDACLambda S A C P) (t : Transition S A),
        t.terminated = true →
        m.td_error t = t.reward - m.critic_predict_v m.critic t.frm.state)
    ∧ (∀ (S A : Type) (m : VarianceTD S) (t : Transition S A),
        t.terminated = true →
        m.td_error t
          = (m.compute_value_error t.frm.state t.reward t.tto.state) ^ 2
            - m.variance_estimator.state_value t.frm.state)
    ∧ (∀ (S : Type) (m : TOSARSALambda S) (t : Transition S ℕ) (qsa : ℚ),
        t.terminated = true →
        m.q_func.evaluate_index (m.q_func.embed t.frm.state) t.action
          = some qsa →
        m.handle_transition t = some (
          let m1 := m.update_traces (m.q_func.embed t.frm.state)
            (m.trace.lambda.value * m.gamma.value)
          let q1 := (m.q_func.update_index m1.trace.weights t.action
            (m.alpha.value * (t.reward - m.q_old))).getD m.q_func
          let q2 := (q1.update_index (m.q_func.embed t.frm.state) t.action
            (m.alpha.value * (m.q_old - qsa))).getD q1
          { m1 with q_old := 0, trace := m1.trace.decay 0, q_func := q2 }))
    ∧ (∀ (S A : Type) (m : ExponentialTD S) (x y : S) (a : A) (r : ℚ),
        m.handle_transition ⟨.full x, a, r, .terminal y⟩
          = m.handle_transition ⟨.full x, a, r, .full y⟩) := by
  refine ⟨?_, ?_, ?_, ?_, ?_, ?_, ?_, ?_⟩
  · intro S m t qsa hterm hpred
    simp [QLearning.residual, hterm, hpred]
  · intro S m t hterm
    simp [PAL.residual, hterm]
  · intro S m t qsa hterm heval
    simp [GreedyGQ.handle_transition, hterm, heval]
  · intro S A C P m t hterm
    simp [TDAC.td_error, hterm]
  · intro S A C P m t hterm
    simp [TDACLambda.td_error, hterm]
  · intro S A m t hterm
    simp [VarianceTD.td_error, hterm, LinearV.state_value, sq]
  · intro S m t qsa hterm heval
    simp [TOSARSALambda.handle_transition, hterm, heval, Trace.get,
      update_traces_q_func, update_traces_alpha, update_traces_q_old]
  · intro S A m x y a r
    rfl

/-- Counterexample to C2 as stated: on a terminal transition with reward 2
and all weights zero, `VarianceTD` applies the error 4 (its squared value
error), driving the variance weights to `[4]`, while
`reward − predict(s) = 2` would have driven them to `[2]`. -/
theorem claim_C2_counterexample_variance_td :
    c2_t.terminated = true
    ∧ (c2_var.handle_transition c2_t).variance_estimator.weights = [4]
    ∧ c2_t.reward - c2_var.predict_v c2_t.frm.state = 2
    ∧ vadd c2_var.variance_estimator.weights
        (scale (c2_var.alpha.value
          * (c2_t.reward - c2_var.predict_v c2_t.frm.state))
          (c2_var.variance_estimator.embed c2_t.frm.state)) = [2]
    ∧ ([4] : List ℚ) ≠ [2] := by
  refine ⟨rfl, ?_, ?_, ?_, ?_⟩
  · norm_num [c2_var, c2_t, VarianceTD.handle_transition,
      VarianceTD.td_error, VarianceTD.compute_value_error,
      VarianceTD.predict_v, LinearV.state_value, LinearV.evaluate,
      LinearV.update, dot, vadd, scale, Observation.state, Parameter.const,
      Transition.terminated, Observation.is_terminal]
  · norm_num [c2_var, c2_t, VarianceTD.predict_v, LinearV.state_value,
      LinearV.evaluate, dot, Observation.state, Parameter.const]
  · norm_num [c2_var, c2_t, VarianceTD.predict_v, LinearV.state_value,
      LinearV.evaluate, dot, vadd, scale, Observation.state,
      Parameter.const]
  · intro h
    exact absurd (List.head_eq_of_cons_eq h) (by norm_num)

/-- Witness for C2 at concrete terminal inputs for each hypothesis-bearing
conjunct. -/
theorem claim_C2_terminal_error_per_algorithm_witness :
    c3_q1.residual c3_t1 = some 1
    ∧ c6_pal.residual c3_t1 = 1
    ∧ ((c2_ggq.handle_transition c3_t1).map
        (fun x => (x.fa_q.weights, x.fa_w.weights))) = some ([[1]], [-2])
    ∧ c2_tdac.td_error c2_t = -3
    ∧ c1_tdacl.td_error c2_t = 2
    ∧ c2_var.td_error c2_t = 4
    ∧ ((c2_tos.handle_transition c3_t1).map
        (fun x => (x.q_func.weights, x.q_old))) = some ([[1]], 0) := by
  refine ⟨?_, ?_, ?_, ?_, ?_, ?_, ?_⟩
  · rw [claim_C2_terminal_error_per_algorithm.1 Unit c3_q1 c3_t1 0 rfl
      (by simp [c3_q1, c3_t1, QLearning.predict_qsa, LinearQ.evaluate_index,
        dot, Observation.state])]
    norm_num [c3_t1]
  · rw [claim_C2_terminal_error_per_algorithm.2.1 Unit c6_pal c3_t1 rfl]
    norm_num [c6_pal, c3_t1, LinearQ.evaluate, dot, Observation.state]
  · rw [claim_C2_terminal_error_per_algorithm.2.2.1 Unit c2_ggq c3_t1 3 rfl
      (by simp [c2_ggq, c3_t1, LinearQ.evaluate_index, dot,
        Observation.state])]
    norm_num [c2_ggq, c3_t1, LinearQ.update_index, LinearV.update,
      LinearV.evaluate, dot, vadd, scale, Observation.state,
      Parameter.const]
  · rw [claim_C2_terminal_error_per_algorithm.2.2.2.1 Unit Unit Unit Unit
      c2_tdac c2_t rfl]
    norm_num [c2_tdac, c2_t]
  · rw [claim_C2_terminal_error_per_algorithm.2.2.2.2.1 Unit Unit Unit Unit
      c1_tdacl c2_t rfl]
    norm_num [c1_tdacl, c2_t]
  · rw [claim_C2_terminal_error_per_algorithm.2.2.2.2.2.1 Unit Unit c2_var
      c2_t rfl]
    norm_num [c2_var, c2_t, VarianceTD.compute_value_error,
      LinearV.state_value, LinearV.evaluate, dot, Observation.state,
      Parameter.const]
  · rw [claim_C2_terminal_error_per_algorithm.2.2.2.2.2.2.1 Unit c2_tos
      c3_t1 0 rfl
      (by simp [c2_tos, c3_t1, LinearQ.evaluate_index, dot,
        Observation.state])]
    norm_num [c2_tos, c3_t1, TOSARSALambda.update_traces, Trace.decay,
      Trace.update, Trace.get, LinearQ.update_index, dot, vadd, scale,
      Observation.state, Parameter.const]

/-- Claim C8: a failed approximator update inside `handle_transition` is
swallowed — the step completes, remaining updates still run, and no error
reaches the caller — while a failed required prediction is a hard error
aborting the step: shown for Q-learning (swallowed update / aborting
prediction), PAL, Greedy-GQ (the secondary `fa_w` update fails yet the
primary `fa_q` update still runs / aborting prediction), TOSARSA(λ) (the
trace-directed update fails yet the feature-directed one still runs),
VarianceTD and ExponentialTD. -/
theorem claim_C8_update_failures_swallowed :
    (∀ (S : Type) (m : QLearning S) (t : Transition S ℕ) (r : ℚ),
        m.residual t = some r →
        m.q_func.update_index (m.q_func.embed t.frm.state) t.action
          (m.alpha.value * r) = none →
        m.handle_transition t = some m)
    ∧ (∀ (S : Type) (m : QLearning S) (t : Transition S ℕ),
        m.predict_qsa t.frm.state t.action = none →
        m.handle_transition t = none)
    ∧ (∀ (S : Type) (m : PAL S) (t : Transition S ℕ),
        m.q_func.update_index (m.q_func.embed t.frm.state) t.action
          (m.alpha.value * m.residual t) = none →
        m.handle_transition t = m)
    ∧ (∀ (S : Type) (m : GreedyGQ S) (t : Transition S ℕ) (qsa : ℚ),
        t.terminated = true →
        m.fa_q.evaluate_index (m.fa_w.embed t.frm.state) t.action
          = some qsa →
        m.fa_w.update (m.fa_w.embed t.frm.state)
          (m.alpha.value * m.beta.value * ((t.reward - qsa)
            - m.fa_w.evaluate (m.fa_w.embed t.frm.state))) = none →
        m.handle_transition t = some ({ m with
          fa_q := (m.fa_q.update_index (m.fa_w.embed t.frm.state) t.action
            (m.alpha.value * (t.reward - qsa))).getD m.fa_q }))
    ∧ (∀ (S : Type) (m : GreedyGQ S) (t : Transition S ℕ),
        t.terminated = true →
        m.fa_q.evaluate_index (m.fa_w.embed t.frm.state) t.action = none →
        m.handle_transition t = none)
    ∧ (∀ (S : Type) (m : TOSARSALambda S) (t : Transition S ℕ) (qsa : ℚ),
        t.terminated = true →
        m.q_func.evaluate_index (m.q_func.embed t.frm.state) t.action
          = some qsa →
        m.q_func.update_index
          (m.update_traces (m.q_func.embed t.frm.state)
            (m.trace.lambda.value * m.gamma.value)).trace.weights t.action
          (m.alpha.value * (t.reward - m.q_old)) = none →
        m.handle_transition t = some (
          let m1 := m.update_traces (m.q_func.embed t.frm.state)
            (m.trace.lambda.value * m.gamma.value)
          let q2 := (m.q_func.update_index (m.q_func.embed t.frm.state)
            t.action (m.alpha.value * (m.q_old - qsa))).getD m.q_func
          { m1 with q_old := 0, trace := m1.trace.decay 0, q_func := q2 }))
    ∧ (∀ (S A : Type) (m : VarianceTD S) (t : Transition S A),
        m.variance_estimator.update
          (m.variance_estimator.embed t.frm.state)
          (m.alpha.value * m.td_error t) = none →
        m.handle_transition t = m)
    ∧ (∀ (S A : Type) (m : ExponentialTD S) (t : Transition S A),
        m.v_func.update (m.v_func.embed t.frm.state)
          (m.alpha.value * m.td_error t) = none →
        m.handle_transition t = m) := by
  refine ⟨?_, ?_, ?_, ?_, ?_, ?_, ?_, ?_⟩
  · intro S m t r hres hup
    simp [QLearning.handle_transition, hres, hup]
  · intro S m t hpred
    simp [QLearning.handle_transition, QLearning.residual, hpred]
  · intro S m t hup
    simp [PAL.handle_transition, hup]
  · intro S m t qsa hterm heval hup
    simp [GreedyGQ.handle_transition, hterm, heval, hup]
  · intro S m t hterm heval
    simp [GreedyGQ.handle_transition, hterm, heval]
  · intro S m t qsa hterm heval hup
    simp [TOSARSALambda.handle_transition, hterm, heval, hup, Trace.get,
      update_traces_q_func, update_traces_alpha, update_traces_q_old]
  · intro S A m t hup
    simp [VarianceTD.handle_transition, hup]
  · intro S A m t hup
    simp [ExponentialTD.handle_transition, hup]

/-- Witness for C8: each failure mode realised at a concrete instance — a
weight row longer than the feature vector makes the update fail while the
evaluation succeeds, and an out-of-range action makes the required
prediction fail. -/
theorem claim_C8_update_failures_swallowed_witness :
    c8_ql.handle_transition c3_t1 = some c8_ql
    ∧ c8_ql.handle_transition c8_t5 = none
    ∧ c8_pal.handle_transition c3_t1 = c8_pal
    ∧ ((c8_ggq.handle_transition c3_t1).map
        (fun x => (x.fa_q.weights, x.fa_w.weights)))
        = some ([[1]], [5, 6])
    ∧ c8_ggq.handle_transition c8_t5 = none
    ∧ ((c8_tos.handle_transition c3_t1).map
        (fun x => (x.q_func.weights, x.q_old))) = some ([[7]], 0)
    ∧ c8_var.handle_transition c2_t = c8_var
    ∧ c8_exp.handle_transition c2_t = c8_exp := by
  refine ⟨?_, ?_, ?_, ?_, ?_, ?_, ?_, ?_⟩
  · exact claim_C8_update_failures_swallowed.1 Unit c8_ql c3_t1 0
      (by norm_num [c8_ql, c3_t1, QLearning.residual, QLearning.predict_qsa,
        LinearQ.evaluate_index, dot, Observation.state,
        Transition.terminated, Observation.is_terminal, Parameter.const])
      (by simp [c8_ql, c3_t1, LinearQ.update_index, Observation.state])
  · exact claim_C8_update_failures_swallowed.2.1 Unit c8_ql c8_t5
      (by simp [c8_ql, c8_t5, QLearning.predict_qsa,
        LinearQ.evaluate_index, Observation.state])
  · exact claim_C8_update_failures_swallowed.2.2.1 Unit c8_pal c3_t1
      (by simp [c8_pal, c3_t1, LinearQ.update_index, Observation.state])
  · rw [claim_C8_update_failures_swallowed.2.2.2.1 Unit c8_ggq c3_t1 3 rfl
      (by simp [c8_ggq, c3_t1, LinearQ.evaluate_index, dot,
        Observation.state])
      (by simp [c8_ggq, c3_t1, LinearV.update, Observation.state])]
    norm_num [c8_ggq, c3_t1, LinearQ.update_index, dot, vadd, scale,
      Observation.state, Parameter.const]
  · exact claim_C8_update_failures_swallowed.2.2.2.2.1 Unit c8_ggq c8_t5
      rfl
      (by simp [c8_ggq, c8_t5, LinearQ.evaluate_index, Observation.state])
  · rw [claim_C8_update_failures_swallowed.2.2.2.2.2.1 Unit c8_tos c3_t1 0
      rfl
      (by simp [c8_tos, c3_t1, LinearQ.evaluate_index, dot,
        Observation.state])
      (by simp [c8_tos, c3_t1, TOSARSALambda.update_traces, Trace.decay,
        Trace.update, Trace.get, LinearQ.update_index, dot, vadd, scale,
        Observation.state])]
    norm_num [c8_tos, c3_t1, TOSARSALambda.update_traces, Trace.decay,
      Trace.update, Trace.get, LinearQ.update_index, dot, vadd, scale,
      Observation.state, Parameter.const]
  · exact claim_C8_update_failures_swallowed.2.2.2.2.2.2.1 Unit Unit c8_var
      c2_t
      (by simp [c8_var, c2_t, LinearV.update, Observation.state])
  · exact claim_C8_update_failures_swallowed.2.2.2.2.2.2.2 Unit Unit c8_exp
      c2_t
      (by simp [c8_exp, c2_t, LinearV.update, Observation.state])

end Rsrl
